import Mathlib

/-!
Verification development for the taiyuechain/taipublicchain node core.

The Go sources under `core` (genesis setup), `tai` / `etrue` (full-node
service), `les` (light-node API backend) and the protocol metering code are
shallowly embedded below.  Machine integers (`uint64`) are modelled by `Nat`
(no arithmetic in the embedded paths can overflow 64 bits is *not* assumed;
the embedded code performs no wrapping arithmetic at all, only equality
tests, assignments and one big-integer division, and Go `*big.Int` is
arbitrary precision, so `Nat`/`Int` are exact models).  Nil-able Go pointers
(`*big.Int`, `*ChainConfig`, `*Genesis`) are modelled by `Option`.  The
content-addressed hashes (`common.Hash`) produced by the keccak/RLP pipeline
are modelled collision-freely: the hash of a block is the block content
itself, so hash equality coincides with content equality, and a fast-block
hash is never equal to a snail-block hash.  The zero `common.Hash{}` that Go
uses as an absence marker is modelled by `none`.
-/

/-- Account addresses (`common.Address`), modelled as the 160-bit number the
20-byte array denotes. -/
abbrev Address := Nat

/-- Uncompressed public keys (`[]byte`), modelled as the number the byte
string denotes. -/
abbrev PublicKey := Nat

/-- Modelled from the spec: the `crypto` package is not under src/;
`crypto.PubkeyToAddress` derives a 160-bit address from a public key.  We
model it as truncation to 160 bits (any fixed function of the key serves:
no embedded claim inspects the derived address). -/
def pubkeyToAddress (pk : PublicKey) : Address :=
  pk % (2 ^ 160)

/-- Modelled from the spec: `types.CommitteeMember.Flag` values
(`flag ∈ Used, Unused, Removed` per the spec data model) are declared in
`core/types`, which is not under src/.  `zero` is the Go zero value a
freshly unmarshalled member carries before `ToFastBlock` stamps it. -/
inductive MemberFlag where
  | zero
  | used
  | unused
  | removed
  deriving Repr, DecidableEq

/-- Modelled from the spec: `types.CommitteeMember.MType` values
(`type ∈ Fixed, Elected` per the spec data model); `zero` is the Go zero
value. -/
inductive MemberType where
  | zero
  | fixed
  | elected
  deriving Repr, DecidableEq

/-- Embeds `types.CommitteeMember`. -/
structure CommitteeMember where
  coinbase : Address
  publickey : PublicKey
  flag : MemberFlag := .zero
  mtype : MemberType := .zero
  committeeBase : Address := 0
  deriving Repr, DecidableEq

/-- Embeds `core.GenesisAccount` (the `PrivateKey` test field is test-only; byte
strings are modelled as the numbers they denote). -/
structure GenesisAccount where
  code : Nat := 0
  storage : List (Nat × Nat) := []
  balance : Int
  nonce : Nat := 0
  deriving Repr, DecidableEq

/-- Modelled from the spec: `params.ChainConfig` is not under src/.  The
embedded code only stores configs, compares identities and asks
`CheckCompatible` whether a fork switch-over block moved below the local
head, so a config is modelled by a network identity plus one representative
fork-block height. -/
structure ChainConfig where
  chainId : Nat
  forkBlock : Option Nat := none
  deriving Repr, DecidableEq

/-- Modelled from the spec: `params.ConfigCompatError` carries the height to
rewind to ("config-compat may trigger a bounded chain rewind"). -/
structure ConfigCompatError where
  rewindTo : Nat
  deriving Repr, DecidableEq

/-- Modelled from the spec: `params.ChainConfig.CheckCompatible` (not under
src/) reports a conflict when the new config "specifies a fork block below
the local head block"; the error's `RewindTo` asks for a rewind below the
moved fork. -/
def checkCompatible (stored newcfg : ChainConfig) (height : Nat) : Option ConfigCompatError :=
  if stored.forkBlock = newcfg.forkBlock then
    none
  else
    let lowest := min (stored.forkBlock.getD height) (newcfg.forkBlock.getD height)
    if lowest ≤ height then some ⟨lowest - 1⟩ else none

/-- Modelled from the spec: the concrete `params` chain configurations are
not under src/; each network has its own identity (`NetworkId`: mainnet
20515, testnet 18928, singlenode 400 per the spec). -/
def MainnetChainConfig : ChainConfig := ⟨20515, none⟩

/-- Modelled from the spec: the Ropsten-analogue test network config. -/
def TestnetChainConfig : ChainConfig := ⟨18928, none⟩

/-- Modelled from the spec: the dev/singlenode network config. -/
def DevnetChainConfig : ChainConfig := ⟨400, none⟩

/-- Modelled from the spec: `params.AllMinervaProtocolChanges`, the
catch-all config returned for unknown genesis hashes and no-config errors
(given a reserved identity distinct from the named networks). -/
def AllMinervaProtocolChanges : ChainConfig := ⟨1337, none⟩

/-- Embeds `types.Header` as populated by `Genesis.ToFastBlock`: only `Number`,
`Time`, `ParentHash`, `Extra`, `GasLimit`, `GasUsed` and `Root` are set.
The state commitment `Root` is modelled as the committed state itself (an
injective commitment). -/
structure FastHeader where
  number : Nat
  time : Nat
  parentHash : Nat
  extra : Nat
  gasLimit : Nat
  gasUsed : Nat
  root : List (Address × GenesisAccount)
  deriving Repr, DecidableEq

/-- Embeds `types.Block` as built by `types.NewBlock(head, nil, nil, nil, members)`
in the genesis path: a header plus the switch-info committee members of
block #0. -/
structure FastBlock where
  header : FastHeader
  committee : List CommitteeMember
  deriving Repr, DecidableEq

/-- Embeds `types.SnailHeader` (the fields the genesis path populates; the Go
nil-able `*big.Int` difficulty fields are `Option Int`). -/
structure SnailHeader where
  number : Nat
  nonce : Nat
  time : Nat
  parentHash : Nat
  extra : Nat
  difficulty : Option Int
  mixDigest : Nat
  coinbase : Address
  fastNumber : Option Nat := none
  fastHash : Option FastBlock := none
  fruitDifficulty : Option Int := none
  deriving Repr, DecidableEq

/-- Embeds `types.SnailBlock` as built by `types.NewSnailBlock`: a header plus the
embedded fruits.  A fruit is itself a snail block whose own fruit list is
empty on every embedded path, so fruits are stored by their headers. -/
structure SnailBlock where
  header : SnailHeader
  fruits : List SnailHeader
  deriving Repr, DecidableEq

/-- Embeds `common.Hash` values flowing through the embedded code, modelled
collision-freely by the hashed content: fast-block hashes and snail-block
hashes live in disjoint ranges of the same type, mirroring the single Go
hash type. -/
inductive Hash where
  | fast (b : FastBlock)
  | snail (b : SnailBlock)
  deriving Repr, DecidableEq

/-- Embeds `types.Block.Hash()` under the collision-free hash model. -/
def FastBlock.hashOf (b : FastBlock) : Hash := Hash.fast b

/-- Embeds `types.SnailBlock.Hash()` under the collision-free hash model. -/
def SnailBlock.hashOf (b : SnailBlock) : Hash := Hash.snail b

/-- Embeds `core.Genesis`: the genesis specification. -/
structure Genesis where
  config : Option ChainConfig
  nonce : Nat := 0
  timestamp : Nat := 0
  extraData : Nat := 0
  gasLimit : Nat := 0
  difficulty : Option Int := none
  mixhash : Nat := 0
  coinbase : Address := 0
  alloc : List (Address × GenesisAccount) := []
  committee : List CommitteeMember := []
  number : Nat := 0
  gasUsed : Nat := 0
  parentHash : Nat := 0
  deriving Repr, DecidableEq

/-- Modelled from the spec: `params.GenesisGasLimit` (the gas limit
substituted when the specification leaves `GasLimit` zero) is not under
src/; its concrete value is immaterial to every claim. -/
def GenesisGasLimit : Nat := 16777216

/-- Modelled from the spec: `params.GenesisDifficulty` (the difficulty
substituted when the specification leaves `Difficulty` nil) is not under
src/. -/
def GenesisDifficulty : Int := 1048576

/-- Modelled from the spec: `params.FruitBlockRatio` — "its difficulty is
`snailDifficulty / FRUIT_RATIO`" — is not under src/; the upstream value is
64.  The claims depend only on the quotient being the Go `big.Int`
(Euclidean) division by this positive ratio. -/
def FruitBlockRatio : Int := 64

/-- First-match association-list lookup, the model of a keyed read from the
underlying key-value store (later writes are prepended, so they win). -/
def assocFind {α β : Type} [DecidableEq α] : List (α × β) → α → Option β
  | [], _ => none
  | (k0, v0) :: rest, k => if k0 = k then some v0 else assocFind rest k

/-- The chain database (`taidb.Database` / `etruedb.Database`), restricted
to the key families the embedded code reads or writes.  Fast-chain keys
live in `rawdb`, snail-chain keys in `snailchain/rawdb`; the Go store keeps
them apart with disjoint key prefixes, modelled here as disjoint fields.
An absent key reads as the Go zero value, modelled by `none`. -/
structure DB where
  fastCanonical : List (Nat × Hash) := []
  fastBlocks : List ((Hash × Nat) × FastBlock) := []
  fastReceipts : List (Hash × Nat) := []
  fastHeadBlock : Option Hash := none
  fastHeadHeader : Option Hash := none
  fastHeaderNumber : List (Hash × Nat) := []
  stateGcBR : Option Nat := none
  chainConfigs : List (Hash × ChainConfig) := []
  snailCanonical : List (Nat × Hash) := []
  snailBlocks : List ((Hash × Nat) × SnailBlock) := []
  snailTd : List ((Hash × Nat) × Int) := []
  snailFtLookup : List (FastBlock × Hash) := []
  snailHeadBlock : Option Hash := none
  snailHeadHeader : Option Hash := none
  databaseVersion : Nat := 0
  deriving Repr, DecidableEq

/-- Embeds `rawdb.ReadCanonicalHash(db, number)` (zero hash ↦ `none`). -/
def DB.readCanonicalHash (db : DB) (number : Nat) : Option Hash :=
  assocFind db.fastCanonical number

/-- Embeds `snailchain/rawdb.ReadCanonicalHash(db, number)`. -/
def DB.readSnailCanonicalHash (db : DB) (number : Nat) : Option Hash :=
  assocFind db.snailCanonical number

/-- Embeds `rawdb.ReadChainConfig(db, hash)`. -/
def DB.readChainConfig (db : DB) (hash : Hash) : Option ChainConfig :=
  assocFind db.chainConfigs hash

/-- Embeds `rawdb.WriteChainConfig(db, hash, cfg)`: the Go writer ignores a nil
config. -/
def DB.writeChainConfig (db : DB) (hash : Hash) (cfg : Option ChainConfig) : DB :=
  match cfg with
  | none => db
  | some c => { db with chainConfigs := (hash, c) :: db.chainConfigs }

/-- Embeds `rawdb.ReadHeaderNumber(db, hash)`. -/
def DB.readHeaderNumber (db : DB) (hash : Hash) : Option Nat :=
  assocFind db.fastHeaderNumber hash

/-- Embeds `rawdb.ReadDatabaseVersion(db)` (absent key reads as 0, the Go zero
value). -/
def DB.readDatabaseVersion (db : DB) : Nat :=
  db.databaseVersion

/-- Embeds `rawdb.WriteDatabaseVersion(db, version)`. -/
def DB.writeDatabaseVersion (db : DB) (version : Nat) : DB :=
  { db with databaseVersion := version }

/-- Embeds `Genesis.ToFastBlock`: builds the genesis fast block.  The Go function
also persists the state trie into the supplied database (or a throwaway
memory database when nil); no embedded read path consults those trie keys,
so the block construction is modelled as pure.  Every committee member is
stamped `StateUsedFlag` / `TypeFixed` and given its key-derived
`CommitteeBase`, exactly as the source mutates the members in place. -/
def Genesis.toFastBlock (g : Genesis) : FastBlock :=
  let head : FastHeader :=
    { number := g.number
      time := g.timestamp
      parentHash := g.parentHash
      extra := g.extraData
      gasLimit := if g.gasLimit = 0 then GenesisGasLimit else g.gasLimit
      gasUsed := g.gasUsed
      root := g.alloc }
  let members := g.committee.map (fun m =>
    { m with
        flag := MemberFlag.used
        mtype := MemberType.fixed
        committeeBase := pubkeyToAddress m.publickey })
  { header := head, committee := members }

/-- The error of `Genesis.CommitFast` / `Genesis.CommitSnail` ("can't
commit genesis block with number > 0"). -/
inductive CommitError where
  | nonzeroNumber
  deriving Repr, DecidableEq

/-- Embeds `Genesis.CommitFast`: writes the genesis block as the canonical head
block and records the chain config (under `AllMinervaProtocolChanges` when
the specification has none). -/
def Genesis.commitFast (g : Genesis) (db : DB) : Except CommitError (FastBlock × DB) :=
  let block := g.toFastBlock
  if block.header.number ≠ 0 then
    .error .nonzeroNumber
  else
    let h := block.hashOf
    let n := block.header.number
    .ok (block,
      { db with
          fastBlocks := ((h, n), block) :: db.fastBlocks
          fastHeaderNumber := (h, n) :: db.fastHeaderNumber
          fastReceipts := (h, n) :: db.fastReceipts
          fastCanonical := (n, h) :: db.fastCanonical
          fastHeadBlock := some h
          fastHeadHeader := some h
          stateGcBR := some n
          chainConfigs := (h, g.config.getD AllMinervaProtocolChanges) :: db.chainConfigs })

/-- Embeds `Genesis.ToSnailBlock`: builds the genesis snail block with its single
embedded fruit.  When the specification's difficulty is nil the source
substitutes `params.GenesisDifficulty` *and writes it back into the
specification*; the updated specification is returned alongside the block
because `CommitSnail` reads the mutated field afterwards. -/
def Genesis.toSnailBlock (g : Genesis) : SnailBlock × Genesis :=
  let g2 := if g.difficulty = none then { g with difficulty := some GenesisDifficulty } else g
  let d := g2.difficulty.getD GenesisDifficulty
  let head : SnailHeader :=
    { number := g.number
      nonce := g.nonce
      time := g.timestamp
      parentHash := g.parentHash
      extra := g.extraData
      difficulty := some d
      mixDigest := g.mixhash
      coinbase := g.coinbase }
  let fastBlock := g2.toFastBlock
  let fruitHead : SnailHeader :=
    { number := g2.number
      nonce := g2.nonce
      time := g2.timestamp
      parentHash := g2.parentHash
      extra := 0
      difficulty := none
      mixDigest := 0
      coinbase := g2.coinbase
      fastNumber := some fastBlock.header.number
      fastHash := some fastBlock
      fruitDifficulty := some (d.ediv FruitBlockRatio) }
  ({ header := head, fruits := [fruitHead] }, g2)

/-- Embeds `Genesis.CommitSnail`: writes the genesis snail block as the canonical
head block.  The total difficulty written is the (possibly defaulted)
`g.Difficulty` — the source passes the specification's difficulty pointer
to `WriteTd` directly. -/
def Genesis.commitSnail (g : Genesis) (db : DB) : Except CommitError (SnailBlock × DB) :=
  let p := g.toSnailBlock
  let block := p.1
  let g2 := p.2
  if block.header.number ≠ 0 then
    .error .nonzeroNumber
  else
    let h := block.hashOf
    let n := block.header.number
    .ok (block,
      { db with
          snailTd := ((h, n), g2.difficulty.getD GenesisDifficulty) :: db.snailTd
          snailBlocks := ((h, n), block) :: db.snailBlocks
          snailFtLookup :=
            block.fruits.filterMap (fun f => f.fastHash.map (fun fh => (fh, h)))
              ++ db.snailFtLookup
          snailCanonical := (n, h) :: db.snailCanonical
          snailHeadBlock := some h
          snailHeadHeader := some h })

/-- Genesis committee public key #1 of the main network
(`hexutil.MustDecode` argument transcribed as a number). -/
def mainnetKey1 : PublicKey :=
  0x042044fd0c38906242061f6978d7a3158b55fd373d3c56fe972390002f5c46484d404c6356280f3b73c14d7ec3a3bfa06e7899972991d4312f47d7c9224ebe2e69

/-- Genesis committee public key #2 of the main network. -/
def mainnetKey2 : PublicKey :=
  0x0474e42b6b7e03a3f624f367b9d4030a9fd3507916c2de018f8578d6fb3e0b283d9613a7508042d8963e71d7b4807a6cdb7dfee717d22f4498787566078374b6fc

/-- Genesis committee public key #3 of the main network. -/
def mainnetKey3 : PublicKey :=
  0x04cdab5f2005e417a8fa357508b6ee1a71ddf96eb489a06194427e02f9c757fc376c2bf76b3b6afddb096284bf8d103e99316d559f4094beaceeda4752cca42b8a

/-- Genesis committee public key #4 of the main network. -/
def mainnetKey4 : PublicKey :=
  0x04db067a3f83aee61df3aa8724857120b46f1e82036f18e14d6cf7358fd4138b79eb7e6961d99fb112986ef3c7b64ac8184f3eafabe559fe2358d07b7b46d94078

/-- Embeds `core.DefaultGenesisBlock`: the Taichain main-net genesis
specification. -/
def DefaultGenesisBlock : Genesis :=
  { config := some MainnetChainConfig
    nonce := 330
    extraData := 0x54727565436861696E204D61696E4E6574
    gasLimit := 16777216
    difficulty := some 2147483648
    coinbase := 0x0000000000000000000000000000000000000000
    mixhash := 0x0000000000000000000000000000000000000000000000000000000000000000
    parentHash := 0x0000000000000000000000000000000000000000000000000000000000000000
    alloc :=
      [ (0x0172479e14f038B7C825975927d5d8CcDF1670A2,
          { balance := 65750000000000000000000000 }),
        (0x58e96112Fd2727cFa4D09EC545CF6b6Bff4B4F62,
          { balance := 8250000000000000000000000 }) ]
    committee :=
      [ { coinbase := 0x0172479e14f038B7C825975927d5d8CcDF1670A2, publickey := mainnetKey1 },
        { coinbase := 0x58e96112Fd2727cFa4D09EC545CF6b6Bff4B4F62, publickey := mainnetKey2 },
        { coinbase := 0xe4A05d9be5671045a4D7286A58863D06961842B2, publickey := mainnetKey3 },
        { coinbase := 0xdcB9f89f272bB397D4870f40c9E925Aaf5553b73, publickey := mainnetKey4 } ] }

/-- Embeds `core.DefaultTestnetGenesisBlock`: the test-network genesis
specification (its seed keys coincide with the main-net committee keys). -/
def DefaultTestnetGenesisBlock : Genesis :=
  { config := some TestnetChainConfig
    nonce := 928
    extraData := 0x54727565436861696E20546573744E6574203035
    gasLimit := 20971520
    difficulty := some 100000
    timestamp := 1537891200
    coinbase := 0x0000000000000000000000000000000000000000
    mixhash := 0x0000000000000000000000000000000000000000000000000000000000000000
    parentHash := 0x0000000000000000000000000000000000000000000000000000000000000000
    alloc :=
      [ (0x0172479e14f038B7C825975927d5d8CcDF1670A2,
          { balance := 24000000000000000000000000 }) ]
    committee :=
      [ { coinbase := 0x0172479e14f038B7C825975927d5d8CcDF1670A2, publickey := mainnetKey1 },
        { coinbase := 0x58e96112Fd2727cFa4D09EC545CF6b6Bff4B4F62, publickey := mainnetKey2 },
        { coinbase := 0xe4A05d9be5671045a4D7286A58863D06961842B2, publickey := mainnetKey3 },
        { coinbase := 0xdcB9f89f272bB397D4870f40c9E925Aaf5553b73, publickey := mainnetKey4 } ] }

/-- Modelled from the spec: `params.MainnetGenesisHash` is not under src/;
the in-repo test `TestDefaultGenesisBlock` pins it to the hash of
`DefaultGenesisBlock().ToFastBlock(nil)`, which under the collision-free
hash model is the block itself. -/
def MainnetGenesisHash : Hash := DefaultGenesisBlock.toFastBlock.hashOf

/-- Modelled from the spec: `params.MainnetSnailGenesisHash`, pinned by the
in-repo test `TestDefaultSnailGenesisBlock` to the hash of
`DefaultGenesisBlock().ToSnailBlock(nil)`. -/
def MainnetSnailGenesisHash : Hash := (DefaultGenesisBlock.toSnailBlock).1.hashOf

/-- Modelled from the spec: `params.TestnetGenesisHash`, pinned by
`TestDefaultGenesisBlock` to the hash of the testnet fast genesis block. -/
def TestnetGenesisHash : Hash := DefaultTestnetGenesisBlock.toFastBlock.hashOf

/-- Modelled from the spec: `params.TestnetSnailGenesisHash`, pinned by
`TestDefaultSnailGenesisBlock` to the hash of the testnet snail genesis
block. -/
def TestnetSnailGenesisHash : Hash := (DefaultTestnetGenesisBlock.toSnailBlock).1.hashOf

/-- Embeds `Genesis.configOrDefault` (a nil receiver is legal in the source and is
modelled by the `none` case). -/
def configOrDefault (g : Option Genesis) (ghash : Hash) : Option ChainConfig :=
  match g with
  | some g0 => g0.config
  | none =>
    if ghash = MainnetGenesisHash then some MainnetChainConfig
    else if ghash = MainnetSnailGenesisHash then some MainnetChainConfig
    else if ghash = TestnetGenesisHash then some TestnetChainConfig
    else if ghash = TestnetSnailGenesisHash then some TestnetChainConfig
    else some AllMinervaProtocolChanges

/-- The error values a genesis setup can surface: `errGenesisNoConfig`, a
`*GenesisMismatchError` (carrying the stored and the new hash), the
"missing block number for head header hash" error, and a
`*params.ConfigCompatError`. -/
inductive GenesisSetupError where
  | noConfig
  | mismatch (stored newHash : Hash)
  | missingHeadNumber
  | compat (e : ConfigCompatError)
  deriving Repr, DecidableEq

/-- Result of one genesis setup pass: either the Go code faults (it calls
`block.Hash()` on the nil block that `CommitFast`/`CommitSnail` return for
a specification with `Number ≠ 0`), or it returns `(config, hash, err)`,
with the zero hash modelled as `none`. -/
inductive SetupOutcome where
  | crash
  | done (config : Option ChainConfig) (hash : Option Hash) (err : Option GenesisSetupError)
  deriving Repr, DecidableEq

/-- Embeds `core.setupFastGenesisBlock`. -/
def setupFastGenesisBlock (db : DB) (genesis : Option Genesis) : SetupOutcome × DB :=
  if genesis.isSome ∧ genesis.bind Genesis.config = none then
    (.done (some AllMinervaProtocolChanges) none (some .noConfig), db)
  else
    match db.readCanonicalHash 0 with
    | none =>
      let g := genesis.getD DefaultGenesisBlock
      match g.commitFast db with
      | .error _ => (.crash, db)
      | .ok (block, db2) => (.done g.config (some block.hashOf) none, db2)
    | some stored =>
      let mismatch : Option (SetupOutcome × DB) :=
        match genesis with
        | some g =>
          let hash := g.toFastBlock.hashOf
          if hash ≠ stored then
            some (.done g.config (some hash) (some (.mismatch stored hash)), db)
          else
            none
        | none => none
      match mismatch with
      | some out => out
      | none =>
        let newcfg := configOrDefault genesis stored
        match db.readChainConfig stored with
        | none =>
          (.done newcfg (some stored) none, db.writeChainConfig stored newcfg)
        | some storedcfg =>
          if genesis = none ∧ stored ≠ MainnetGenesisHash then
            (.done (some storedcfg) (some stored) none, db)
          else
            let height :=
              match db.fastHeadHeader with
              | none => none
              | some hh => db.readHeaderNumber hh
            match height with
            | none => (.done newcfg (some stored) (some .missingHeadNumber), db)
            | some h =>
              match newcfg with
              | none => (.crash, db)
              | some nc =>
                match checkCompatible storedcfg nc h with
                | some compatErr =>
                  if h ≠ 0 ∧ compatErr.rewindTo ≠ 0 then
                    (.done newcfg (some stored) (some (.compat compatErr)), db)
                  else
                    (.done newcfg (some stored) none, db.writeChainConfig stored newcfg)
                | none =>
                  (.done newcfg (some stored) none, db.writeChainConfig stored newcfg)

/-- Embeds `core.setupSnailGenesisBlock`. -/
def setupSnailGenesisBlock (db : DB) (genesis : Option Genesis) : SetupOutcome × DB :=
  if genesis.isSome ∧ genesis.bind Genesis.config = none then
    (.done (some AllMinervaProtocolChanges) none (some .noConfig), db)
  else
    match db.readSnailCanonicalHash 0 with
    | none =>
      let g := genesis.getD DefaultGenesisBlock
      match g.commitSnail db with
      | .error _ => (.crash, db)
      | .ok (block, db2) => (.done g.config (some block.hashOf) none, db2)
    | some stored =>
      let mismatch : Option (SetupOutcome × DB) :=
        match genesis with
        | some g =>
          let hash := (g.toSnailBlock).1.hashOf
          if hash ≠ stored then
            some (.done g.config (some hash) (some (.mismatch stored hash)), db)
          else
            none
        | none => none
      match mismatch with
      | some out => out
      | none =>
        (.done (configOrDefault genesis stored) (some stored) none, db)

/-- Result of `core.SetupGenesisBlock`: `(config, fastHash, snailHash,
err)`, where `err` is the *fast* setup's error (the snail setup's error is
discarded by the source), or a fault propagated from either pass. -/
inductive SetupGenesisOutcome where
  | crash
  | done (config : Option ChainConfig) (fastHash snailHash : Option Hash)
      (err : Option GenesisSetupError)
  deriving Repr, DecidableEq

/-- Embeds `core.SetupGenesisBlock`: runs the fast setup then the snail setup on
the same database and reports the fast pass's config and error together
with both genesis hashes. -/
def SetupGenesisBlock (db : DB) (genesis : Option Genesis) : SetupGenesisOutcome × DB :=
  if genesis.isSome ∧ genesis.bind Genesis.config = none then
    (.done (some AllMinervaProtocolChanges) none none (some .noConfig), db)
  else
    match setupFastGenesisBlock db genesis with
    | (.crash, db1) => (.crash, db1)
    | (.done fastConfig fastHash fastErr, db1) =>
      match setupSnailGenesisBlock db1 genesis with
      | (.crash, db2) => (.crash, db2)
      | (.done _ snailHash _, db2) =>
        (.done fastConfig fastHash snailHash fastErr, db2)

/-- Modelled from the spec: `core.BlockChainVersion` (the schema version the
node writes; "checksum/version mismatch ... node refuses to start") is not
under src/; the upstream value is 3.  The embedded checks use it only
symbolically. -/
def BlockChainVersion : Nat := 3

/-- Modelled from the spec: the `downloader` package is not under src/; sync
modes are small integers (`--syncmode <full|fast|light>` per the spec CLI
surface), with `LightSync` the largest valid one, so `SyncMode.IsValid`
accepts exactly the codes up to `LightSync`. -/
def FullSync : Nat := 0

/-- Modelled from the spec: the fast ("pivot") sync mode code. -/
def FastSync : Nat := 1

/-- Modelled from the spec: the light sync mode code. -/
def LightSync : Nat := 2

/-- Modelled from the spec: `downloader.SyncMode.IsValid`. -/
def syncModeIsValid (mode : Nat) : Bool := mode ≤ LightSync

/-- The slice of `tai.Config` / `etrue.Config` the embedded paths of `New`
read. -/
structure NodeConfig where
  syncMode : Nat
  genesis : Option Genesis := none
  skipBcVersionCheck : Bool := false
  networkId : Nat := 20515
  etherbase : Address := 0
  deriving Repr, DecidableEq

/-- The light-sync rejection message of `tai.New` (the contracted "can not"
of the source is spelled out here; only the `tai` vs `etrue` package name
distinguishes the two packages' messages). -/
def taiLightSyncMsg : String :=
  "can not run tai.Taichain in light sync mode, use les.LightTruechain"

/-- The light-sync rejection message of `etrue.New` (contraction spelled
out as above). -/
def etrueLightSyncMsg : String :=
  "can not run etrue.Taichain in light sync mode, use les.LightTruechain"

/-- Errors surfaced by `New` on its embedded paths. -/
inductive NewError where
  | lightSyncMode (msg : String)
  | invalidSyncMode (mode : Nat)
  | genesisFailure (e : GenesisSetupError)
  | versionMismatch (stored current : Nat)
  deriving Repr, DecidableEq

/-- Chain-rewinding side effects performed by `New` (the only mutations of
chain state it performs; `BlockChain.SetHead` itself lives outside src/). -/
inductive RewindEvent where
  | fastSetHead (n : Nat)
  | snailSetHead (n : Nat)
  deriving Repr, DecidableEq

/-- The observable result of a constructed `Taichain` service object. -/
structure TaichainService where
  chainConfig : Option ChainConfig
  genesisHash : Option Hash
  networkId : Nat
  etherbase : Address
  deriving Repr, DecidableEq

/-- Outcome of `New`: a fault propagated from the genesis setup, an error
return, or the constructed service together with the final database and the
chain rewinds performed. -/
inductive NewOutcome where
  | crash
  | failure (e : NewError)
  | success (node : TaichainService) (db : DB) (rewinds : List RewindEvent)
  deriving Repr, DecidableEq

/-- Embeds `tai.New` (file part_001): light-sync rejection, sync-mode
validity, genesis setup (tolerating only a `ConfigCompatError`), database
version check, then — after the chains are constructed — the
config-compatibility rewind of first the fast and then the snail chain,
each followed by a rewrite of the chain config.  The external constructors
(`CreateDB` is modelled by the `db` argument; engine, chains, pools,
election, agent, protocol manager, miner and API backend live outside src/
and always succeed) do not touch the embedded state. -/
def taiNew (config : NodeConfig) (db : DB) : NewOutcome :=
  if config.syncMode = LightSync then
    .failure (.lightSyncMode taiLightSyncMsg)
  else if ¬ syncModeIsValid config.syncMode then
    .failure (.invalidSyncMode config.syncMode)
  else
    match SetupGenesisBlock db config.genesis with
    | (.crash, _) => .crash
    | (.done chainCfg genesisHash _ genesisErr, db1) =>
      let proceed : Option ConfigCompatError → NewOutcome := fun compat =>
        let vres : Except NewError DB :=
          if config.skipBcVersionCheck then .ok db1
          else
            let bcVersion := db1.readDatabaseVersion
            if bcVersion ≠ BlockChainVersion ∧ bcVersion ≠ 0 then
              .error (.versionMismatch bcVersion BlockChainVersion)
            else
              .ok (db1.writeDatabaseVersion BlockChainVersion)
        match vres with
        | .error e => .failure e
        | .ok db2 =>
          match compat with
          | some ce =>
            let db3 :=
              match genesisHash with
              | some gh => (db2.writeChainConfig gh chainCfg).writeChainConfig gh chainCfg
              | none => db2
            .success ⟨chainCfg, genesisHash, config.networkId, config.etherbase⟩ db3
              [.fastSetHead ce.rewindTo, .snailSetHead ce.rewindTo]
          | none =>
            .success ⟨chainCfg, genesisHash, config.networkId, config.etherbase⟩ db2 []
      match genesisErr with
      | some (.compat ce) => proceed (some ce)
      | some e => .failure (.genesisFailure e)
      | none => proceed none

/-- Embeds `etrue.New` (file part_007), transcribed independently of
`taiNew`; the sources differ only in package-level names and in the
light-sync message text. -/
def etrueNew (config : NodeConfig) (db : DB) : NewOutcome :=
  if config.syncMode = LightSync then
    .failure (.lightSyncMode etrueLightSyncMsg)
  else if ¬ syncModeIsValid config.syncMode then
    .failure (.invalidSyncMode config.syncMode)
  else
    match SetupGenesisBlock db config.genesis with
    | (.crash, _) => .crash
    | (.done chainCfg genesisHash _ genesisErr, db1) =>
      let proceed : Option ConfigCompatError → NewOutcome := fun compat =>
        let vres : Except NewError DB :=
          if config.skipBcVersionCheck then .ok db1
          else
            let bcVersion := db1.readDatabaseVersion
            if bcVersion ≠ BlockChainVersion ∧ bcVersion ≠ 0 then
              .error (.versionMismatch bcVersion BlockChainVersion)
            else
              .ok (db1.writeDatabaseVersion BlockChainVersion)
        match vres with
        | .error e => .failure e
        | .ok db2 =>
          match compat with
          | some ce =>
            let db3 :=
              match genesisHash with
              | some gh => (db2.writeChainConfig gh chainCfg).writeChainConfig gh chainCfg
              | none => db2
            .success ⟨chainCfg, genesisHash, config.networkId, config.etherbase⟩ db3
              [.fastSetHead ce.rewindTo, .snailSetHead ce.rewindTo]
          | none =>
            .success ⟨chainCfg, genesisHash, config.networkId, config.etherbase⟩ db2 []
      match genesisErr with
      | some (.compat ce) => proceed (some ce)
      | some e => .failure (.genesisFailure e)
      | none => proceed none

/-- The renaming that identifies the two packages: it maps the tai
light-sync message to the etrue one and is the identity elsewhere. -/
def renameTaiToEtrue : NewOutcome → NewOutcome
  | .failure (.lightSyncMode _) => .failure (.lightSyncMode etrueLightSyncMsg)
  | o => o

/-- Subsystem calls made by `Start`, `Stop` and `StartMining` (each names
one call on an external collaborator; only their occurrence and order are
embedded). -/
inductive ServiceEvent where
  | startBloomHandlers
  | newPublicNetAPI
  | protocolManagerStart (maxPeers : Nat)
  | lesServerStart
  | startPbftServer
  | agentStart
  | electionStart
  | snailPoolStart
  | protocolManagerStart2 (maxPeers : Nat)
  | stopPbftServer
  | bloomIndexerClose
  | blockchainStop
  | snailblockchainStop
  | protocolManagerStop
  | lesServerStop
  | txPoolStop
  | snailPoolStop
  | minerStop
  | eventMuxStop
  | chainDbClose
  | closeShutdownChan
  | setAcceptFruits
  | minerStart (etherbase : Address)
  deriving Repr, DecidableEq

/-- The inputs `Start` consults: the p2p server's peer limit, the light
server configuration, and whether the pbft server comes up (the
`s.pbftServer == nil` test after `startPbftServer`). -/
structure StartEnv where
  maxPeers : Nat
  lightServ : Nat
  lightPeers : Nat
  hasLesServer : Bool
  pbftServerStarts : Bool
  deriving Repr, DecidableEq

/-- Errors `Start` can return. -/
inductive StartError where
  | invalidPeerConfig (lightPeers maxPeers : Nat)
  | pbftStartFailed (msg : String)
  deriving Repr, DecidableEq

/-- Embeds `tai.Taichain.Start`. -/
def taiStart (env : StartEnv) : Except StartError (List ServiceEvent) :=
  if env.lightServ > 0 ∧ env.lightPeers ≥ env.maxPeers then
    .error (.invalidPeerConfig env.lightPeers env.maxPeers)
  else
    let maxPeers := if env.lightServ > 0 then env.maxPeers - env.lightPeers else env.maxPeers
    if ¬ env.pbftServerStarts then
      .error (.pbftStartFailed "start pbft server failed.")
    else
      .ok ([.startBloomHandlers, .newPublicNetAPI, .protocolManagerStart maxPeers]
        ++ (if env.hasLesServer then [.lesServerStart] else [])
        ++ [.startPbftServer, .agentStart, .electionStart, .snailPoolStart,
            .protocolManagerStart2 maxPeers]
        ++ (if env.hasLesServer then [.lesServerStart] else []))

/-- Embeds `etrue.Taichain.Start`, transcribed independently. -/
def etrueStart (env : StartEnv) : Except StartError (List ServiceEvent) :=
  if env.lightServ > 0 ∧ env.lightPeers ≥ env.maxPeers then
    .error (.invalidPeerConfig env.lightPeers env.maxPeers)
  else
    let maxPeers := if env.lightServ > 0 then env.maxPeers - env.lightPeers else env.maxPeers
    if ¬ env.pbftServerStarts then
      .error (.pbftStartFailed "start pbft server failed.")
    else
      .ok ([.startBloomHandlers, .newPublicNetAPI, .protocolManagerStart maxPeers]
        ++ (if env.hasLesServer then [.lesServerStart] else [])
        ++ [.startPbftServer, .agentStart, .electionStart, .snailPoolStart,
            .protocolManagerStart2 maxPeers]
        ++ (if env.hasLesServer then [.lesServerStart] else []))

/-- Embeds `tai.Taichain.Stop`. -/
def taiStop (hasLesServer : Bool) : List ServiceEvent :=
  [.stopPbftServer, .bloomIndexerClose, .blockchainStop, .snailblockchainStop,
   .protocolManagerStop]
  ++ (if hasLesServer then [.lesServerStop] else [])
  ++ [.txPoolStop, .snailPoolStop, .minerStop, .eventMuxStop, .chainDbClose,
      .closeShutdownChan]

/-- Embeds `etrue.Taichain.Stop`, transcribed independently. -/
def etrueStop (hasLesServer : Bool) : List ServiceEvent :=
  [.stopPbftServer, .bloomIndexerClose, .blockchainStop, .snailblockchainStop,
   .protocolManagerStop]
  ++ (if hasLesServer then [.lesServerStop] else [])
  ++ [.txPoolStop, .snailPoolStop, .minerStop, .eventMuxStop, .chainDbClose,
      .closeShutdownChan]

/-- The inputs `StartMining` consults: the configured etherbase (zero means
unset), the wallets' account lists (only the first wallet's first account
is ever taken), and the `local` flag. -/
structure MiningEnv where
  etherbase : Address
  wallets : List (List Address)
  isLocal : Bool
  deriving Repr, DecidableEq

/-- Result of `StartMining`. -/
inductive StartMiningResult where
  | failure (msg : String)
  | success (events : List ServiceEvent) (etherbase : Address)
  deriving Repr, DecidableEq

/-- Embeds `Taichain.Etherbase` (identical in both packages): a configured
non-zero etherbase wins; otherwise the first account of the first wallet;
otherwise an error. -/
def resolveEtherbase (etherbase : Address) (wallets : List (List Address)) : Option Address :=
  if etherbase ≠ 0 then some etherbase
  else
    match wallets with
    | [] => none
    | accounts :: _ =>
      match accounts with
      | [] => none
      | a :: _ => some a

/-- Embeds `tai.Taichain.StartMining`. -/
def taiStartMining (env : MiningEnv) : StartMiningResult :=
  match resolveEtherbase env.etherbase env.wallets with
  | none => .failure "coinbase missing: coinbase must be explicitly specified"
  | some eb =>
    .success ((if env.isLocal then [.setAcceptFruits] else []) ++ [.minerStart eb]) eb

/-- Embeds `etrue.Taichain.StartMining`, transcribed independently. -/
def etrueStartMining (env : MiningEnv) : StartMiningResult :=
  match resolveEtherbase env.etherbase env.wallets with
  | none => .failure "coinbase missing: coinbase must be explicitly specified"
  | some eb =>
    .success ((if env.isLocal then [.setAcceptFruits] else []) ++ [.minerStart eb]) eb

/-- State of the downloader as the API backends observe it: `Cancel`
aborts the in-flight sync session ("on cancel, outstanding requests are
abandoned and peers freed"; the downloader package is outside src/). -/
structure DownloaderState where
  sessionActive : Bool
  deriving Repr, DecidableEq

/-- Embeds `downloader.Cancel`: the in-flight session, if any, ends. -/
def DownloaderState.cancel (_d : DownloaderState) : DownloaderState :=
  { sessionActive := false }

/-- Modelled from the spec: a chain's canonical pointer as `SetHead`
manipulates it — "`setHead(n)` rewinds the canonical pointer"
(`core.BlockChain.SetHead` / `snailchain.SnailBlockChain.SetHead` are not
under src/): the head never moves above its current position. -/
structure ChainPointer where
  head : Nat
  deriving Repr, DecidableEq

/-- Modelled from the spec: the rewind itself. -/
def ChainPointer.setHead (c : ChainPointer) (n : Nat) : ChainPointer :=
  { head := min c.head n }

/-- The slice of the full node the `TrueAPIBackend` methods under claim
touch: the protocol manager's downloader and the two chains. -/
structure FullNodeBackend where
  downloader : DownloaderState
  blockchain : ChainPointer
  snailblockchain : ChainPointer
  deriving Repr, DecidableEq

/-- The calls a backend method issues, in order. -/
inductive BackendCall where
  | downloaderCancel
  | fastChainSetHead (n : Nat)
  | snailChainSetHead (n : Nat)
  deriving Repr, DecidableEq

/-- Embeds `tai.TrueAPIBackend.SetHead`: cancel the downloader, then rewind
the fast chain. -/
def TrueAPIBackend.SetHead (b : FullNodeBackend) (number : Nat) :
    FullNodeBackend × List BackendCall :=
  ({ b with
      downloader := b.downloader.cancel
      blockchain := b.blockchain.setHead number },
   [.downloaderCancel, .fastChainSetHead number])

/-- Embeds `tai.TrueAPIBackend.SetSnailHead`: cancel the downloader, then
rewind the snail chain. -/
def TrueAPIBackend.SetSnailHead (b : FullNodeBackend) (number : Nat) :
    FullNodeBackend × List BackendCall :=
  ({ b with
      downloader := b.downloader.cancel
      snailblockchain := b.snailblockchain.setHead number },
   [.downloaderCancel, .snailChainSetHead number])

/-- The slice of the light node behind `les.LesApiBackend`: a light node
runs no snail chain, no election and no snail pool, only the (light) fast
chain and the downloader. -/
structure LesBackend where
  downloader : DownloaderState
  blockchain : ChainPointer
  deriving Repr, DecidableEq

/-- Go errors on the les query paths, modelled by their message (`none` is
the nil error). -/
abbrev GoError := Option String

/-- Embeds `les.LesApiBackend.CurrentSnailBlock`. -/
def LesApiBackend.CurrentSnailBlock (_b : LesBackend) : Option SnailBlock :=
  none

/-- Embeds `les.LesApiBackend.SnailHeaderByNumber` (any block number). -/
def LesApiBackend.SnailHeaderByNumber (_b : LesBackend) (_blockNr : Int) :
    Option SnailHeader × GoError :=
  (none, none)

/-- Embeds `les.LesApiBackend.SnailBlockByNumber` (any block number). -/
def LesApiBackend.SnailBlockByNumber (_b : LesBackend) (_blockNr : Int) :
    Option SnailBlock × GoError :=
  (none, none)

/-- Embeds `les.LesApiBackend.GetSnailBlock` (any block hash). -/
def LesApiBackend.GetSnailBlock (_b : LesBackend) (_blockHash : Hash) :
    Option SnailBlock × GoError :=
  (none, none)

/-- Embeds `les.LesApiBackend.GetFruit` (any fast-block hash). -/
def LesApiBackend.GetFruit (_b : LesBackend) (_fastblockHash : Hash) :
    Option SnailBlock × GoError :=
  (none, none)

/-- Embeds `les.LesApiBackend.GetCommittee` (any block number); the Go
`map[string]interface` result is modelled as an optional association
list. -/
def LesApiBackend.GetCommittee (_b : LesBackend) (_number : Int) :
    Option (List (String × Nat)) × GoError :=
  (none, none)

/-- Embeds `les.LesApiBackend.GetCurrentCommitteeNumber` (nil `*big.Int`
result). -/
def LesApiBackend.GetCurrentCommitteeNumber (_b : LesBackend) : Option Int :=
  none

/-- Embeds `les.LesApiBackend.SnailPoolContent` (nil slice ↦ `[]`). -/
def LesApiBackend.SnailPoolContent (_b : LesBackend) : List SnailBlock :=
  []

/-- Embeds `les.LesApiBackend.SnailPoolInspect` (nil slice ↦ `[]`). -/
def LesApiBackend.SnailPoolInspect (_b : LesBackend) : List SnailBlock :=
  []

/-- Embeds `les.LesApiBackend.SnailPoolStats`. -/
def LesApiBackend.SnailPoolStats (_b : LesBackend) : Nat × Nat :=
  (0, 0)

/-- Embeds `les.LesApiBackend.SetSnailHead`: an empty body. -/
def LesApiBackend.SetSnailHead (b : LesBackend) (_number : Nat) : LesBackend :=
  b

/-- Modelled from the spec: the protocol message codes (the `protocol.go`
constants the metering switch compares against are not under src/; the spec
fixes the code table). -/
def NewFastBlockHashesMsg : Nat := 0x02

/-- Protocol code of `NewFastBlock` (spec table). -/
def NewFastBlockMsg : Nat := 0x03

/-- Protocol code of `Tx` (spec table). -/
def TxMsg : Nat := 0x04

/-- Protocol code of `GetFastBlockHeaders` (spec table). -/
def GetFastBlockHeadersMsg : Nat := 0x05

/-- Protocol code of `FastBlockHeaders` (spec table). -/
def FastBlockHeadersMsg : Nat := 0x06

/-- Protocol code of `GetFastBlockBodies` (spec table). -/
def GetFastBlockBodiesMsg : Nat := 0x07

/-- Protocol code of `FastBlockBodies` (spec table). -/
def FastBlockBodiesMsg : Nat := 0x08

/-- Protocol code of `NewSnailBlockHashes` (spec table). -/
def NewSnailBlockHashesMsg : Nat := 0x09

/-- Protocol code of `NewSnailBlock` (spec table). -/
def NewSnailBlockMsg : Nat := 0x0A

/-- Protocol code of `GetSnailBlockHeaders` (spec table). -/
def GetSnailBlockHeadersMsg : Nat := 0x0B

/-- Protocol code of `SnailBlockHeaders` (spec table). -/
def SnailBlockHeadersMsg : Nat := 0x0C

/-- Protocol code of `GetSnailBlockBodies` (spec table). -/
def GetSnailBlockBodiesMsg : Nat := 0x0D

/-- Protocol code of `SnailBlockBodies` (spec table). -/
def SnailBlockBodiesMsg : Nat := 0x0E

/-- Protocol code of `NewFruit` (spec table). -/
def NewFruitMsg : Nat := 0x0F

/-- Protocol code of `NodeData` (spec table). -/
def NodeDataMsg : Nat := 0x10

/-- Protocol code of `Receipts` (spec table). -/
def ReceiptsMsg : Nat := 0x11

/-- Protocol code of `TbftNodeInfo` (spec table). -/
def TbftNodeInfoMsg : Nat := 0x12

/-- Protocol code of `TbftNodeInfoHash` (spec table). -/
def TbftNodeInfoHashMsg : Nat := 0x13

/-- Protocol code of `GetTbftNodeInfo` (spec table). -/
def GetTbftNodeInfoMsg : Nat := 0x14

/-- A meter is identified by the registry name it is created with
(`metrics.NewRegisteredMeter`); the names below transcribe the
registration block of the tai metering file. -/
def Meter := String
deriving instance DecidableEq, Repr for Meter

/-- Registry name of `getHeadInPacketsMeter`. -/
def getHeadInPacketsMeter : Meter := "etai/get/head/in/packets"

/-- Registry name of `getHeadInTrafficMeter`. -/
def getHeadInTrafficMeter : Meter := "etai/get/head/in/traffic"

/-- Registry name of `getHeadOutPacketsMeter`. -/
def getHeadOutPacketsMeter : Meter := "etai/get/head/out/packets"

/-- Registry name of `getHeadOutTrafficMeter`. -/
def getHeadOutTrafficMeter : Meter := "etai/get/head/out/traffic"

/-- Registry name of `getBodyInPacketsMeter`. -/
def getBodyInPacketsMeter : Meter := "etai/get/bodies/in/packets"

/-- Registry name of `getBodyInTrafficMeter`. -/
def getBodyInTrafficMeter : Meter := "etai/get/bodies/in/traffic"

/-- Registry name of `getBodyOutPacketsMeter`. -/
def getBodyOutPacketsMeter : Meter := "etai/get/bodies/out/packets"

/-- Registry name of `getBodyOutTrafficMeter`. -/
def getBodyOutTrafficMeter : Meter := "etai/get/bodies/out/traffic"

/-- Registry name of `getNodeInfoInPacketsMeter`. -/
def getNodeInfoInPacketsMeter : Meter := "etai/get/nodeinfo/in/packets"

/-- Registry name of `getNodeInfoInTrafficMeter`. -/
def getNodeInfoInTrafficMeter : Meter := "etai/get/nodeinfo/in/traffic"

/-- Registry name of `getNodeInfoOutPacketsMeter`. -/
def getNodeInfoOutPacketsMeter : Meter := "etai/get/nodeinfo/out/packets"

/-- Registry name of `getNodeInfoOutTrafficMeter`. -/
def getNodeInfoOutTrafficMeter : Meter := "etai/get/nodeinfo/out/traffic"

/-- Registry name of `miscInPacketsMeter`. -/
def miscInPacketsMeter : Meter := "etai/misc/in/packets"

/-- Registry name of `miscInTrafficMeter`. -/
def miscInTrafficMeter : Meter := "etai/misc/in/traffic"

/-- Registry name of `miscOutPacketsMeter`. -/
def miscOutPacketsMeter : Meter := "etai/misc/out/packets"

/-- Registry name of `miscOutTrafficMeter`. -/
def miscOutTrafficMeter : Meter := "etai/misc/out/traffic"

/-- Registry name of `reqFHeaderInPacketsMeter`. -/
def reqFHeaderInPacketsMeter : Meter := "etai/req/headers/in/packets"

/-- Registry name of `reqFHeaderInTrafficMeter`. -/
def reqFHeaderInTrafficMeter : Meter := "etai/req/headers/in/traffic"

/-- Registry name of `reqFHeaderOutPacketsMeter`. -/
def reqFHeaderOutPacketsMeter : Meter := "etai/req/headers/out/packets"

/-- Registry name of `reqFHeaderOutTrafficMeter`. -/
def reqFHeaderOutTrafficMeter : Meter := "etai/req/headers/out/traffic"

/-- Registry name of `reqSHeaderInPacketsMeter`. -/
def reqSHeaderInPacketsMeter : Meter := "etai/req/sheaders/in/packets"

/-- Registry name of `reqSHeaderInTrafficMeter`. -/
def reqSHeaderInTrafficMeter : Meter := "etai/req/sheaders/in/traffic"

/-- Registry name of `reqSHeaderOutPacketsMeter`. -/
def reqSHeaderOutPacketsMeter : Meter := "etai/req/sheaders/out/packets"

/-- Registry name of `reqSHeaderOutTrafficMeter`. -/
def reqSHeaderOutTrafficMeter : Meter := "etai/req/sheaders/out/traffic"

/-- Registry name of `reqFBodyInPacketsMeter`. -/
def reqFBodyInPacketsMeter : Meter := "etai/req/fbodies/in/packets"

/-- Registry name of `reqFBodyInTrafficMeter`. -/
def reqFBodyInTrafficMeter : Meter := "etai/req/fbodies/in/traffic"

/-- Registry name of `reqFBodyOutPacketsMeter`. -/
def reqFBodyOutPacketsMeter : Meter := "etai/req/fbodies/out/packets"

/-- Registry name of `reqFBodyOutTrafficMeter`. -/
def reqFBodyOutTrafficMeter : Meter := "etai/req/fbodies/out/traffic"

/-- Registry name of `reqSBodyInPacketsMeter`. -/
def reqSBodyInPacketsMeter : Meter := "etai/req/sbodies/in/packets"

/-- Registry name of `reqSBodyInTrafficMeter`. -/
def reqSBodyInTrafficMeter : Meter := "etai/req/sbodies/in/traffic"

/-- Registry name of `reqSBodyOutPacketsMeter`. -/
def reqSBodyOutPacketsMeter : Meter := "etai/req/sbodies/out/packets"

/-- Registry name of `reqSBodyOutTrafficMeter`. -/
def reqSBodyOutTrafficMeter : Meter := "etai/req/sbodies/out/traffic"

/-- Registry name of `reqStateInPacketsMeter`. -/
def reqStateInPacketsMeter : Meter := "etai/req/states/in/packets"

/-- Registry name of `reqStateInTrafficMeter`. -/
def reqStateInTrafficMeter : Meter := "etai/req/states/in/traffic"

/-- Registry name of `reqStateOutPacketsMeter`. -/
def reqStateOutPacketsMeter : Meter := "etai/req/states/out/packets"

/-- Registry name of `reqStateOutTrafficMeter`. -/
def reqStateOutTrafficMeter : Meter := "etai/req/states/out/traffic"

/-- Registry name of `reqReceiptInPacketsMeter`. -/
def reqReceiptInPacketsMeter : Meter := "etai/req/receipts/in/packets"

/-- Registry name of `reqReceiptInTrafficMeter`. -/
def reqReceiptInTrafficMeter : Meter := "etai/req/receipts/in/traffic"

/-- Registry name of `reqReceiptOutPacketsMeter`. -/
def reqReceiptOutPacketsMeter : Meter := "etai/req/receipts/out/packets"

/-- Registry name of `reqReceiptOutTrafficMeter`. -/
def reqReceiptOutTrafficMeter : Meter := "etai/req/receipts/out/traffic"

/-- Registry name of `propFHashInPacketsMeter`. -/
def propFHashInPacketsMeter : Meter := "etai/prop/fhashes/in/packets"

/-- Registry name of `propFHashInTrafficMeter`. -/
def propFHashInTrafficMeter : Meter := "etai/prop/fhashes/in/traffic"

/-- Registry name of `propFHashOutPacketsMeter`. -/
def propFHashOutPacketsMeter : Meter := "etai/prop/fhashes/out/packets"

/-- Registry name of `propFHashOutTrafficMeter`. -/
def propFHashOutTrafficMeter : Meter := "etai/prop/fhashes/out/traffic"

/-- Registry name of `propSHashInPacketsMeter`. -/
def propSHashInPacketsMeter : Meter := "etai/prop/shashes/in/packets"

/-- Registry name of `propSHashInTrafficMeter`. -/
def propSHashInTrafficMeter : Meter := "etai/prop/shashes/in/traffic"

/-- Registry name of `propSHashOutPacketsMeter`. -/
def propSHashOutPacketsMeter : Meter := "etai/prop/shashes/out/packets"

/-- Registry name of `propSHashOutTrafficMeter`. -/
def propSHashOutTrafficMeter : Meter := "etai/prop/shashes/out/traffic"

/-- Registry name of `propFBlockInPacketsMeter`. -/
def propFBlockInPacketsMeter : Meter := "etai/prop/fblocks/in/packets"

/-- Registry name of `propFBlockInTrafficMeter`. -/
def propFBlockInTrafficMeter : Meter := "etai/prop/fblocks/in/traffic"

/-- Registry name of `propFBlockOutPacketsMeter`. -/
def propFBlockOutPacketsMeter : Meter := "etai/prop/fblocks/out/packets"

/-- Registry name of `propFBlockOutTrafficMeter`. -/
def propFBlockOutTrafficMeter : Meter := "etai/prop/fblocks/out/traffic"

/-- Registry name of `propSBlockInPacketsMeter`. -/
def propSBlockInPacketsMeter : Meter := "etai/prop/sblocks/in/packets"

/-- Registry name of `propSBlockInTrafficMeter`. -/
def propSBlockInTrafficMeter : Meter := "etai/prop/sblocks/in/traffic"

/-- Registry name of `propSBlockOutPacketsMeter`. -/
def propSBlockOutPacketsMeter : Meter := "etai/prop/sblocks/out/packets"

/-- Registry name of `propSBlockOutTrafficMeter`. -/
def propSBlockOutTrafficMeter : Meter := "etai/prop/sblocks/out/traffic"

/-- Registry name of `propTxnInPacketsMeter`. -/
def propTxnInPacketsMeter : Meter := "etai/prop/txns/in/packets"

/-- Registry name of `propTxnInTrafficMeter`. -/
def propTxnInTrafficMeter : Meter := "etai/prop/txns/in/traffic"

/-- Registry name of `propTxnOutPacketsMeter`. -/
def propTxnOutPacketsMeter : Meter := "etai/prop/txns/out/packets"

/-- Registry name of `propTxnOutTrafficMeter`. -/
def propTxnOutTrafficMeter : Meter := "etai/prop/txns/out/traffic"

/-- Registry name of `propFtnInPacketsMeter`. -/
def propFtnInPacketsMeter : Meter := "etai/prop/ftns/in/packets"

/-- Registry name of `propFtnInTrafficMeter`. -/
def propFtnInTrafficMeter : Meter := "etai/prop/ftns/in/traffic"

/-- Registry name of `propFtnOutPacketsMeter`. -/
def propFtnOutPacketsMeter : Meter := "etai/prop/ftns/out/packets"

/-- Registry name of `propFtnOutTrafficMeter`. -/
def propFtnOutTrafficMeter : Meter := "etai/prop/ftns/out/traffic"

/-- Registry name of `propNodeInfoInPacketsMeter`. -/
def propNodeInfoInPacketsMeter : Meter := "etai/prop/nodeinfo/in/packets"

/-- Registry name of `propNodeInfoInTrafficMeter`. -/
def propNodeInfoInTrafficMeter : Meter := "etai/prop/nodeinfo/in/traffic"

/-- Registry name of `propNodeInfoOutPacketsMeter`. -/
def propNodeInfoOutPacketsMeter : Meter := "etai/prop/nodeinfo/out/packets"

/-- Registry name of `propNodeInfoOutTrafficMeter`. -/
def propNodeInfoOutTrafficMeter : Meter := "etai/prop/nodeinfo/out/traffic"

/-- Registry name of `propNodeInfoHashInPacketsMeter`. -/
def propNodeInfoHashInPacketsMeter : Meter := "etai/prop/nodeinfohash/in/packets"

/-- Registry name of `propNodeInfoHashInTrafficMeter`. -/
def propNodeInfoHashInTrafficMeter : Meter := "etai/prop/nodeinfohash/in/traffic"

/-- Registry name of `propNodeInfoHashOutPacketsMeter`. -/
def propNodeInfoHashOutPacketsMeter : Meter := "etai/prop/nodeinfohash/out/packets"

/-- Registry name of `propNodeInfoHashOutTrafficMeter`. -/
def propNodeInfoHashOutTrafficMeter : Meter := "etai/prop/nodeinfohash/out/traffic"

/-- Embeds the meter-selection switch of
`tai.meteredMsgReadWriter.ReadMsg`: given the message code, the
`(packets, traffic)` meter pair marked for the inbound message (the default
pair is the misc one). -/
def readMsgMeters (code : Nat) : Meter × Meter :=
  if code = FastBlockHeadersMsg then (reqFHeaderInPacketsMeter, reqFHeaderInTrafficMeter)
  else if code = SnailBlockHeadersMsg then (reqSHeaderInPacketsMeter, reqSHeaderInTrafficMeter)
  else if code = FastBlockBodiesMsg then (reqFBodyInPacketsMeter, reqFBodyInTrafficMeter)
  else if code = SnailBlockBodiesMsg then (reqSBodyInPacketsMeter, reqSBodyInTrafficMeter)
  else if code = NodeDataMsg then (reqStateInPacketsMeter, reqStateInTrafficMeter)
  else if code = ReceiptsMsg then (reqReceiptInPacketsMeter, reqReceiptInTrafficMeter)
  else if code = NewFastBlockHashesMsg then (propFHashInPacketsMeter, propFHashInTrafficMeter)
  else if code = NewSnailBlockHashesMsg then (propSHashInPacketsMeter, propSHashInTrafficMeter)
  else if code = NewFastBlockMsg then (propFBlockInPacketsMeter, propFBlockInTrafficMeter)
  else if code = NewSnailBlockMsg then (propSBlockInPacketsMeter, propSBlockInTrafficMeter)
  else if code = TxMsg then (propTxnInPacketsMeter, propTxnInTrafficMeter)
  else if code = NewFruitMsg then (propFtnInPacketsMeter, propFtnInTrafficMeter)
  else if code = TbftNodeInfoMsg then (propNodeInfoInPacketsMeter, propNodeInfoInTrafficMeter)
  else if code = TbftNodeInfoHashMsg then (propNodeInfoHashInPacketsMeter, propNodeInfoHashInTrafficMeter)
  else if code = GetTbftNodeInfoMsg then (getNodeInfoInPacketsMeter, getNodeInfoInTrafficMeter)
  else if code = GetFastBlockHeadersMsg then (getHeadInPacketsMeter, getHeadInTrafficMeter)
  else if code = GetFastBlockBodiesMsg then (getHeadInPacketsMeter, getHeadInTrafficMeter)
  else if code = GetSnailBlockHeadersMsg then (getBodyInPacketsMeter, getBodyInTrafficMeter)
  else if code = GetSnailBlockBodiesMsg then (getBodyInPacketsMeter, getBodyInTrafficMeter)
  else (miscInPacketsMeter, miscInTrafficMeter)

/-- Embeds the meter-selection switch of
`tai.meteredMsgReadWriter.WriteMsg` (note the `GetFastBlockBodiesMsg` case,
which the source routes to `getHeadInPacketsMeter` and
`getHeadOutTrafficMeter`). -/
def writeMsgMeters (code : Nat) : Meter × Meter :=
  if code = FastBlockHeadersMsg then (reqFHeaderOutPacketsMeter, reqFHeaderOutTrafficMeter)
  else if code = SnailBlockHeadersMsg then (reqSHeaderOutPacketsMeter, reqSHeaderOutTrafficMeter)
  else if code = FastBlockBodiesMsg then (reqFBodyOutPacketsMeter, reqFBodyOutTrafficMeter)
  else if code = SnailBlockBodiesMsg then (reqSBodyOutPacketsMeter, reqSBodyOutTrafficMeter)
  else if code = NodeDataMsg then (reqStateOutPacketsMeter, reqStateOutTrafficMeter)
  else if code = ReceiptsMsg then (reqReceiptOutPacketsMeter, reqReceiptOutTrafficMeter)
  else if code = NewFastBlockHashesMsg then (propFHashOutPacketsMeter, propFHashOutTrafficMeter)
  else if code = NewSnailBlockHashesMsg then (propSHashOutPacketsMeter, propSHashOutTrafficMeter)
  else if code = NewFastBlockMsg then (propFBlockOutPacketsMeter, propFBlockOutTrafficMeter)
  else if code = NewSnailBlockMsg then (propSBlockOutPacketsMeter, propSBlockOutTrafficMeter)
  else if code = TxMsg then (propTxnOutPacketsMeter, propTxnOutTrafficMeter)
  else if code = NewFruitMsg then (propFtnOutPacketsMeter, propFtnOutTrafficMeter)
  else if code = TbftNodeInfoMsg then (propNodeInfoOutPacketsMeter, propNodeInfoOutTrafficMeter)
  else if code = TbftNodeInfoHashMsg then (propNodeInfoHashOutPacketsMeter, propNodeInfoHashOutTrafficMeter)
  else if code = GetTbftNodeInfoMsg then (getNodeInfoOutPacketsMeter, getNodeInfoOutTrafficMeter)
  else if code = GetFastBlockHeadersMsg then (getHeadOutPacketsMeter, getHeadOutTrafficMeter)
  else if code = GetFastBlockBodiesMsg then (getHeadInPacketsMeter, getHeadOutTrafficMeter)
  else if code = GetSnailBlockHeadersMsg then (getBodyOutPacketsMeter, getBodyOutTrafficMeter)
  else if code = GetSnailBlockBodiesMsg then (getBodyOutPacketsMeter, getBodyOutTrafficMeter)
  else (miscOutPacketsMeter, miscOutTrafficMeter)

/-- C7: the claim says both the read and the write path account a
`GetFastBlockBodiesMsg` against the body meters.  Evaluating the embedded
switches at that code shows the source routes both paths to *head* meters
instead (the write path even marks the inbound head packets meter), and the
head meters are distinct from the body meters. -/
theorem getFastBlockBodies_metering_routes_to_head :
    readMsgMeters GetFastBlockBodiesMsg = (getHeadInPacketsMeter, getHeadInTrafficMeter) ∧
    writeMsgMeters GetFastBlockBodiesMsg = (getHeadInPacketsMeter, getHeadOutTrafficMeter) ∧
    getHeadInPacketsMeter ≠ getBodyInPacketsMeter ∧
    getHeadInTrafficMeter ≠ getBodyInTrafficMeter ∧
    getHeadInPacketsMeter ≠ getBodyOutPacketsMeter ∧
    getHeadOutTrafficMeter ≠ getBodyOutTrafficMeter := by
  refine ⟨by decide, by decide, ?_, ?_, ?_, ?_⟩ <;> decide

/-- C8: `TrueAPIBackend.SetHead` first cancels the downloader and then
rewinds only the fast chain (the snail chain is untouched);
`TrueAPIBackend.SetSnailHead` symmetrically rewinds only the snail
chain. -/
theorem trueAPIBackend_setHead_frame (b : FullNodeBackend) (n : Nat) :
    (TrueAPIBackend.SetHead b n).2 = [.downloaderCancel, .fastChainSetHead n] ∧
    (TrueAPIBackend.SetHead b n).1.downloader.sessionActive = false ∧
    (TrueAPIBackend.SetHead b n).1.blockchain = b.blockchain.setHead n ∧
    (TrueAPIBackend.SetHead b n).1.snailblockchain = b.snailblockchain ∧
    (TrueAPIBackend.SetSnailHead b n).2 = [.downloaderCancel, .snailChainSetHead n] ∧
    (TrueAPIBackend.SetSnailHead b n).1.downloader.sessionActive = false ∧
    (TrueAPIBackend.SetSnailHead b n).1.snailblockchain = b.snailblockchain.setHead n ∧
    (TrueAPIBackend.SetSnailHead b n).1.blockchain = b.blockchain := by
  simp [TrueAPIBackend.SetHead, TrueAPIBackend.SetSnailHead, DownloaderState.cancel]

/-- C10: on a light node every snail-chain and committee query returns the
empty result with a nil error, for every backend state and every input, and
`SetSnailHead` leaves the backend untouched. -/
theorem lesBackend_snail_queries_empty :
    (∀ b : LesBackend, LesApiBackend.CurrentSnailBlock b = none) ∧
    (∀ (b : LesBackend) (n : Int), LesApiBackend.SnailHeaderByNumber b n = (none, none)) ∧
    (∀ (b : LesBackend) (n : Int), LesApiBackend.SnailBlockByNumber b n = (none, none)) ∧
    (∀ (b : LesBackend) (h : Hash), LesApiBackend.GetSnailBlock b h = (none, none)) ∧
    (∀ (b : LesBackend) (h : Hash), LesApiBackend.GetFruit b h = (none, none)) ∧
    (∀ (b : LesBackend) (n : Int), LesApiBackend.GetCommittee b n = (none, none)) ∧
    (∀ b : LesBackend, LesApiBackend.GetCurrentCommitteeNumber b = none) ∧
    (∀ b : LesBackend, LesApiBackend.SnailPoolContent b = []) ∧
    (∀ b : LesBackend, LesApiBackend.SnailPoolInspect b = []) ∧
    (∀ b : LesBackend, LesApiBackend.SnailPoolStats b = (0, 0)) ∧
    (∀ (b : LesBackend) (n : Nat), LesApiBackend.SetSnailHead b n = b) :=
  ⟨fun _ => rfl, fun _ _ => rfl, fun _ _ => rfl, fun _ _ => rfl, fun _ _ => rfl,
   fun _ _ => rfl, fun _ => rfl, fun _ => rfl, fun _ => rfl, fun _ => rfl,
   fun _ _ => rfl⟩

/-- C9: the tai and etrue node services are behaviorally equivalent modulo
renaming: off the light-sync rejection both `New`s agree on every
configuration and database (same checks, same order, same accepted and
rejected configurations, same constructed service); on the light-sync
rejection both fail, with messages differing only in the package name; and
`Start`, `Stop` and `StartMining` are extensionally equal. -/
theorem tai_etrue_equivalent :
    (∀ (config : NodeConfig) (db : DB), config.syncMode = LightSync →
      taiNew config db = .failure (.lightSyncMode taiLightSyncMsg) ∧
      etrueNew config db = .failure (.lightSyncMode etrueLightSyncMsg)) ∧
    (∀ (config : NodeConfig) (db : DB), config.syncMode ≠ LightSync →
      etrueNew config db = taiNew config db) ∧
    (∀ env, etrueStart env = taiStart env) ∧
    (∀ hasLes, etrueStop hasLes = taiStop hasLes) ∧
    (∀ env, etrueStartMining env = taiStartMining env) := by
  refine ⟨?_, ?_, fun _ => rfl, fun _ => rfl, fun _ => rfl⟩
  · intro config db h
    constructor <;> simp [taiNew, etrueNew, h]
  · intro config db h
    simp only [taiNew, etrueNew, if_neg h]

/-- C4: for a genesis specification with a non-nil difficulty `d`, the
fruit embedded in the genesis snail block carries fruit difficulty
`d / FruitBlockRatio` (Go big-integer division, i.e. Euclidean division by
the positive ratio) and references the genesis fast block by number and
hash. -/
theorem toSnailBlock_fruit_references_fast_genesis (g : Genesis) (d : Int)
    (h : g.difficulty = some d) :
    ∃ fruit, (g.toSnailBlock).1.fruits = [fruit] ∧
      fruit.fruitDifficulty = some (d.ediv FruitBlockRatio) ∧
      fruit.fastNumber = some g.toFastBlock.header.number ∧
      fruit.fastHash = some g.toFastBlock := by
  simp only [Genesis.toSnailBlock, h, Option.getD_some, reduceCtorEq, if_false]
  exact ⟨_, rfl, rfl, rfl, rfl⟩

/-- Witness for C4 at the default main-net genesis: difficulty 2147483648,
fruit difficulty 2147483648 / 64 = 33554432. -/
theorem toSnailBlock_fruit_references_fast_genesis_witness :
    DefaultGenesisBlock.difficulty = some 2147483648 ∧
    (∃ fruit, (DefaultGenesisBlock.toSnailBlock).1.fruits = [fruit] ∧
      fruit.fruitDifficulty = some ((2147483648 : Int).ediv FruitBlockRatio) ∧
      fruit.fastNumber = some DefaultGenesisBlock.toFastBlock.header.number ∧
      fruit.fastHash = some DefaultGenesisBlock.toFastBlock) :=
  ⟨rfl, toSnailBlock_fruit_references_fast_genesis DefaultGenesisBlock 2147483648 rfl⟩

/-- C2 (amended): on the genesis commit path the total difficulty written
for the snail block is the genesis difficulty alone — parent total
difficulty (zero) plus the block's own difficulty — and does *not* include
the embedded fruit's difficulty, even though that fruit carries the nonzero
difficulty `difficulty / FruitBlockRatio`. -/
theorem commitSnail_td_excludes_fruit_difficulty (g : Genesis) (db : DB)
    (h : g.number = 0) :
    ∃ block db2, g.commitSnail db = .ok (block, db2) ∧
      block.header.difficulty = some (g.difficulty.getD GenesisDifficulty) ∧
      (block.fruits.map (fun f => f.fruitDifficulty.getD 0)).sum =
        (g.difficulty.getD GenesisDifficulty).ediv FruitBlockRatio ∧
      assocFind db2.snailTd (block.hashOf, block.header.number) =
        some (g.difficulty.getD GenesisDifficulty) := by
  rcases hd : g.difficulty with _ | d
  · simp [Genesis.commitSnail, Genesis.toSnailBlock, hd, h]
    exact ⟨_, _, ⟨rfl, rfl⟩, rfl, by simp, by simp [assocFind]⟩
  · simp [Genesis.commitSnail, Genesis.toSnailBlock, hd, h]
    exact ⟨_, _, ⟨rfl, rfl⟩, rfl, by simp, by simp [assocFind]⟩

/-- Witness for the amended C2 at the default main-net genesis on the empty
database. -/
theorem commitSnail_td_excludes_fruit_difficulty_witness :
    DefaultGenesisBlock.number = 0 ∧
    (∃ block db2, DefaultGenesisBlock.commitSnail {} = .ok (block, db2) ∧
      block.header.difficulty =
        some (DefaultGenesisBlock.difficulty.getD GenesisDifficulty) ∧
      (block.fruits.map (fun f => f.fruitDifficulty.getD 0)).sum =
        (DefaultGenesisBlock.difficulty.getD GenesisDifficulty).ediv FruitBlockRatio ∧
      assocFind db2.snailTd (block.hashOf, block.header.number) =
        some (DefaultGenesisBlock.difficulty.getD GenesisDifficulty)) :=
  ⟨rfl, commitSnail_td_excludes_fruit_difficulty DefaultGenesisBlock {} rfl⟩

/-- C2 (counterexample): for the default main-net genesis committed on an
empty database — a snail block stored by the genesis commit path whose
parent total difficulty is zero — the stored total difficulty is
2147483648, while parent.td + block.difficulty + the sum of the embedded
fruits' difficulties is 2147483648 + 33554432, so the claimed formula fails
on the code. -/
theorem commitSnail_td_claim_counterexample :
    ((DefaultGenesisBlock.commitSnail {}).toOption.map
      (fun p => assocFind p.2.snailTd (p.1.hashOf, 0))) = some (some 2147483648) ∧
    ((DefaultGenesisBlock.commitSnail {}).toOption.map
      (fun p => (0 : Int) + p.1.header.difficulty.getD 0 +
        (p.1.fruits.map (fun f => f.fruitDifficulty.getD 0)).sum)) =
      some (2147483648 + 33554432) ∧
    (2147483648 : Int) ≠ 2147483648 + 33554432 := by
  refine ⟨?_, ?_, by decide⟩ <;> rfl

/-- C3 (amended): when the database already holds a genesis at height 0 and
the supplied genesis specification carries a chain configuration but its
fast-block hash differs from the stored one, `setupFastGenesisBlock`
returns a `GenesisMismatchError` with the stored and the new hash, and
leaves the database — in particular the stored genesis block and the
canonical hash at height 0 — entirely unchanged. -/
theorem setupFast_mismatch_no_overwrite (db : DB) (g : Genesis) (stored : Hash)
    (cfg : ChainConfig)
    (hstored : db.readCanonicalHash 0 = some stored)
    (hcfg : g.config = some cfg)
    (hdiff : g.toFastBlock.hashOf ≠ stored) :
    setupFastGenesisBlock db (some g) =
      (.done g.config (some g.toFastBlock.hashOf)
        (some (.mismatch stored g.toFastBlock.hashOf)), db) := by
  simp [setupFastGenesisBlock, hstored, hcfg, hdiff]

/-- Witness for the amended C3: the default main-net genesis is committed,
then the testnet genesis (whose hash differs) is supplied; the result is
the mismatch error and the untouched database. -/
theorem setupFast_mismatch_no_overwrite_witness :
    ((SetupGenesisBlock ({} : DB) none).2.readCanonicalHash 0 = some MainnetGenesisHash) ∧
    DefaultTestnetGenesisBlock.config = some TestnetChainConfig ∧
    DefaultTestnetGenesisBlock.toFastBlock.hashOf ≠ MainnetGenesisHash ∧
    setupFastGenesisBlock (SetupGenesisBlock ({} : DB) none).2
        (some DefaultTestnetGenesisBlock) =
      (.done DefaultTestnetGenesisBlock.config
        (some DefaultTestnetGenesisBlock.toFastBlock.hashOf)
        (some (.mismatch MainnetGenesisHash DefaultTestnetGenesisBlock.toFastBlock.hashOf)),
       (SetupGenesisBlock ({} : DB) none).2) :=
  ⟨rfl, rfl, by decide,
   setupFast_mismatch_no_overwrite (SetupGenesisBlock ({} : DB) none).2
     DefaultTestnetGenesisBlock MainnetGenesisHash TestnetChainConfig rfl rfl (by decide)⟩

/-- C3 (counterexample): the claim quantifies over *every* supplied genesis
specification with a differing fast-block hash, but a specification whose
chain configuration is nil takes the `errGenesisNoConfig` exit before the
mismatch check: with the main-net genesis stored and the bare
`(config := none)` specification supplied — whose fast-block hash does
differ from the stored one — the function returns `errGenesisNoConfig`, not
a `GenesisMismatchError`. -/
theorem setupFast_mismatch_claim_counterexample :
    (SetupGenesisBlock ({} : DB) none).2.readCanonicalHash 0 = some MainnetGenesisHash ∧
    (Genesis.toFastBlock { config := none }).hashOf ≠ MainnetGenesisHash ∧
    (setupFastGenesisBlock (SetupGenesisBlock ({} : DB) none).2
        (some { config := none })).1 =
      .done (some AllMinervaProtocolChanges) none (some .noConfig) := by
  refine ⟨rfl, by decide, rfl⟩

/-- C1: on an empty database (no canonical fast or snail hash at height 0)
with a nil genesis argument, `SetupGenesisBlock` commits the default
main-net genesis and returns the main-net chain config, the fast genesis
hash `MainnetGenesisHash`, the snail genesis hash
`MainnetSnailGenesisHash` and no error; the committed genesis block's
committee has exactly 4 members, each stamped with flag `Used` and type
`Fixed`. -/
theorem setupGenesis_empty_db_mainnet (db : DB)
    (hfast : db.readCanonicalHash 0 = none)
    (hsnail : db.readSnailCanonicalHash 0 = none) :
    (SetupGenesisBlock db none).1 =
      .done (some MainnetChainConfig) (some MainnetGenesisHash)
        (some MainnetSnailGenesisHash) none ∧
    (SetupGenesisBlock db none).2.readCanonicalHash 0 = some MainnetGenesisHash ∧
    (SetupGenesisBlock db none).2.readSnailCanonicalHash 0 = some MainnetSnailGenesisHash ∧
    assocFind (SetupGenesisBlock db none).2.fastBlocks (MainnetGenesisHash, 0) =
      some DefaultGenesisBlock.toFastBlock ∧
    DefaultGenesisBlock.toFastBlock.committee.length = 4 ∧
    ∀ m ∈ DefaultGenesisBlock.toFastBlock.committee,
      m.flag = MemberFlag.used ∧ m.mtype = MemberType.fixed := by
  have hcommitF :
      DefaultGenesisBlock.commitFast db =
        .ok (DefaultGenesisBlock.toFastBlock,
          { db with
              fastBlocks := ((MainnetGenesisHash, 0), DefaultGenesisBlock.toFastBlock)
                :: db.fastBlocks
              fastHeaderNumber := (MainnetGenesisHash, 0) :: db.fastHeaderNumber
              fastReceipts := (MainnetGenesisHash, 0) :: db.fastReceipts
              fastCanonical := (0, MainnetGenesisHash) :: db.fastCanonical
              fastHeadBlock := some MainnetGenesisHash
              fastHeadHeader := some MainnetGenesisHash
              stateGcBR := some 0
              chainConfigs := (MainnetGenesisHash, MainnetChainConfig)
                :: db.chainConfigs }) := rfl
  have hfast2 : assocFind db.fastCanonical 0 = none := hfast
  have hsnail2 : assocFind db.snailCanonical 0 = none := hsnail
  have hsnum : DefaultGenesisBlock.toSnailBlock.1.header.number = 0 := rfl
  have hfh : DefaultGenesisBlock.toFastBlock.hashOf = MainnetGenesisHash := rfl
  have hsh : DefaultGenesisBlock.toSnailBlock.1.hashOf = MainnetSnailGenesisHash := rfl
  have hcfg : DefaultGenesisBlock.config = some MainnetChainConfig := rfl
  refine ⟨?_, ?_, ?_, ?_, by decide, by decide⟩ <;>
    simp [SetupGenesisBlock, setupFastGenesisBlock, setupSnailGenesisBlock,
      DB.readCanonicalHash, DB.readSnailCanonicalHash, hfast2, hsnail2, hcommitF,
      Genesis.commitSnail, hsnum, hfh, hsh, hcfg, assocFind]

/-- Witness for C1 at the literally empty database. -/
theorem setupGenesis_empty_db_mainnet_witness :
    (DB.readCanonicalHash {} 0 = none) ∧
    (DB.readSnailCanonicalHash {} 0 = none) ∧
    ((SetupGenesisBlock ({} : DB) none).1 =
      .done (some MainnetChainConfig) (some MainnetGenesisHash)
        (some MainnetSnailGenesisHash) none ∧
     (SetupGenesisBlock ({} : DB) none).2.readCanonicalHash 0 = some MainnetGenesisHash ∧
     (SetupGenesisBlock ({} : DB) none).2.readSnailCanonicalHash 0 =
       some MainnetSnailGenesisHash ∧
     assocFind (SetupGenesisBlock ({} : DB) none).2.fastBlocks (MainnetGenesisHash, 0) =
       some DefaultGenesisBlock.toFastBlock ∧
     DefaultGenesisBlock.toFastBlock.committee.length = 4 ∧
     ∀ m ∈ DefaultGenesisBlock.toFastBlock.committee,
       m.flag = MemberFlag.used ∧ m.mtype = MemberType.fixed) :=
  ⟨rfl, rfl, setupGenesis_empty_db_mainnet {} rfl rfl⟩

/-- C5: when the genesis setup yields a `ConfigCompatError`, `tai.New` does
not fail with it; provided the version check passes it constructs the
service and rewinds first the fast chain and then the snail chain to
`compat.RewindTo` via `SetHead`, rewriting the stored chain config; for
every other non-nil genesis error, `New` fails and returns exactly that
error. -/
theorem taiNew_compat_rewinds_other_errors_fail (config : NodeConfig) (db : DB)
    (hlight : config.syncMode ≠ LightSync)
    (hvalid : syncModeIsValid config.syncMode = true) :
    (∀ chainCfg genesisHash snailHash ce db1,
      SetupGenesisBlock db config.genesis =
        (.done chainCfg genesisHash snailHash (some (.compat ce)), db1) →
      config.skipBcVersionCheck = false →
      db1.readDatabaseVersion = 0 ∨ db1.readDatabaseVersion = BlockChainVersion →
      ∃ node db3,
        taiNew config db =
          .success node db3 [.fastSetHead ce.rewindTo, .snailSetHead ce.rewindTo] ∧
        (∀ gh c, genesisHash = some gh → chainCfg = some c →
          db3.readChainConfig gh = some c)) ∧
    (∀ chainCfg genesisHash snailHash e db1,
      SetupGenesisBlock db config.genesis =
        (.done chainCfg genesisHash snailHash (some e), db1) →
      (∀ ce, e ≠ .compat ce) →
      taiNew config db = .failure (.genesisFailure e)) := by
  constructor
  · intro chainCfg genesisHash snailHash ce db1 hsetup hskip hver
    have hvcond : ¬ (db1.readDatabaseVersion ≠ BlockChainVersion ∧
        db1.readDatabaseVersion ≠ 0) := by
      rcases hver with h0 | h3
      · simp [h0]
      · simp [h3]
    refine ⟨⟨chainCfg, genesisHash, config.networkId, config.etherbase⟩,
      (match genesisHash with
       | some gh =>
          (((db1.writeDatabaseVersion BlockChainVersion).writeChainConfig gh
            chainCfg).writeChainConfig gh chainCfg)
       | none => db1.writeDatabaseVersion BlockChainVersion), ?_, ?_⟩
    · simp [taiNew, if_neg hlight, hvalid, hsetup, hskip, hvcond]
      rcases genesisHash with _ | gh <;> rfl
    · intro gh c hgh hc
      subst hgh hc
      simp [DB.writeChainConfig, DB.readChainConfig, assocFind]
  · intro chainCfg genesisHash snailHash e db1 hsetup hnc
    rcases e with _ | _ | _ | ce
    · simp [taiNew, if_neg hlight, hvalid, hsetup]
    · simp [taiNew, if_neg hlight, hvalid, hsetup]
    · simp [taiNew, if_neg hlight, hvalid, hsetup]
    · exact absurd rfl (hnc ce)

/-- Witness for C5: the main-net genesis is stored with a chain config
whose fork block sits at height 2 while the local head is at height 5; the
supplied genesis moves the fork to height 3, producing a compat error with
`RewindTo = 1`; `tai.New` then succeeds and rewinds both chains to 1. -/
theorem taiNew_compat_rewinds_other_errors_fail_witness :
    (({ syncMode := FullSync,
        genesis := some { DefaultGenesisBlock with config := some ⟨20515, some 3⟩ } } :
       NodeConfig).syncMode ≠ LightSync) ∧
    syncModeIsValid FullSync = true ∧
    (∃ node db3,
      taiNew
        { syncMode := FullSync,
          genesis := some { DefaultGenesisBlock with config := some ⟨20515, some 3⟩ } }
        { (SetupGenesisBlock ({} : DB) none).2 with
            chainConfigs := [(MainnetGenesisHash, ⟨20515, some 2⟩)]
            fastHeaderNumber := [(MainnetGenesisHash, 5)] } =
        .success node db3 [.fastSetHead 1, .snailSetHead 1] ∧
      (∀ gh c, (some MainnetGenesisHash : Option Hash) = some gh →
        (some (⟨20515, some 3⟩ : ChainConfig) : Option ChainConfig) = some c →
        db3.readChainConfig gh = some c)) := by
  refine ⟨by decide, rfl, ?_⟩
  exact (taiNew_compat_rewinds_other_errors_fail
      { syncMode := FullSync,
        genesis := some { DefaultGenesisBlock with config := some ⟨20515, some 3⟩ } }
      { (SetupGenesisBlock ({} : DB) none).2 with
          chainConfigs := [(MainnetGenesisHash, ⟨20515, some 2⟩)]
          fastHeaderNumber := [(MainnetGenesisHash, 5)] }
      (by decide) (by decide)).1
    (some ⟨20515, some 3⟩) (some MainnetGenesisHash) (some MainnetSnailGenesisHash)
    ⟨1⟩ _ rfl rfl (Or.inl rfl)

/-- C6: with `SkipBcVersionCheck` unset and the genesis setup succeeding,
`tai.New` refuses to construct the node whenever the stored database
version is neither 0 nor `BlockChainVersion`, returning the
upgrade-instruction error with the two versions; when the versions match or
the stored version is 0, it writes the current version and proceeds to a
constructed service. -/
theorem taiNew_version_check (config : NodeConfig) (db : DB)
    (hlight : config.syncMode ≠ LightSync)
    (hvalid : syncModeIsValid config.syncMode = true)
    (hskip : config.skipBcVersionCheck = false) :
    ∀ chainCfg genesisHash snailHash db1,
      SetupGenesisBlock db config.genesis =
        (.done chainCfg genesisHash snailHash none, db1) →
      ((db1.readDatabaseVersion ≠ BlockChainVersion ∧ db1.readDatabaseVersion ≠ 0 →
        taiNew config db =
          .failure (.versionMismatch db1.readDatabaseVersion BlockChainVersion)) ∧
       (db1.readDatabaseVersion = BlockChainVersion ∨ db1.readDatabaseVersion = 0 →
        taiNew config db =
          .success ⟨chainCfg, genesisHash, config.networkId, config.etherbase⟩
            (db1.writeDatabaseVersion BlockChainVersion) [])) := by
  intro chainCfg genesisHash snailHash db1 hsetup
  constructor
  · intro hbad
    simp [taiNew, if_neg hlight, hvalid, hsetup, hskip, hbad.1, hbad.2]
  · intro hok
    have hvcond : ¬ (db1.readDatabaseVersion ≠ BlockChainVersion ∧
        db1.readDatabaseVersion ≠ 0) := by
      rcases hok with h3 | h0
      · simp [h3]
      · simp [h0]
    simp [taiNew, if_neg hlight, hvalid, hsetup, hskip, hvcond]

/-- Witness for C6, both sides: on a database whose stored version is 5 the
construction is refused with the upgrade error; on a fresh database (stored
version 0) the construction proceeds and the version is written. -/
theorem taiNew_version_check_witness :
    (({ syncMode := FullSync } : NodeConfig).syncMode ≠ LightSync) ∧
    syncModeIsValid FullSync = true ∧
    (({ syncMode := FullSync } : NodeConfig).skipBcVersionCheck = false) ∧
    taiNew { syncMode := FullSync } { databaseVersion := 5 } =
      .failure (.versionMismatch 5 BlockChainVersion) ∧
    taiNew { syncMode := FullSync } {} =
      .success
        ⟨some MainnetChainConfig, some MainnetGenesisHash, 20515, 0⟩
        ((SetupGenesisBlock ({} : DB) none).2.writeDatabaseVersion BlockChainVersion)
        [] := by
  refine ⟨by decide, rfl, rfl, ?_, ?_⟩
  · exact ((taiNew_version_check { syncMode := FullSync } { databaseVersion := 5 }
      (by decide) rfl rfl (some MainnetChainConfig) (some MainnetGenesisHash)
      (some MainnetSnailGenesisHash) _ rfl).1 (by decide))
  · exact ((taiNew_version_check { syncMode := FullSync } {}
      (by decide) rfl rfl (some MainnetChainConfig) (some MainnetGenesisHash)
      (some MainnetSnailGenesisHash) _ rfl).2 (Or.inr rfl))
